import Mathlib

/-!
Shallow embedding of `src/main.js` (cli-web-server-cache, version 1.2.0):
an HTTP server exposing GET/PUT/DELETE on paths `/<3-digit-code>`, backed
by an on-disk cache directory of files `<code>.jpg`, with a read-through
fetch from `https://http.cat/<code>.jpg` on a GET miss.

Modelling conventions:
* A blob (Node `Buffer`) is a list of bytes, `List Nat`.
* The cache directory is an association list from full file path to blob;
  `fsp.readFile` is `cacheLookup`, `fsp.writeFile` is `cacheInsert`
  (overwrite), `fsp.unlink` is `cacheErase` (fails when absent).
* The two effectful collaborators of one request are collected in `FsEnv`:
  `fetchResult` is the outcome of the `superagent` origin fetch
  (`some body` for a 2xx response, `none` for any failure), and `writeOk`
  says whether the `fsp.mkdir`/`fsp.writeFile` pair succeeds.  A failed
  write leaves the directory unchanged.
* `handleRequest` is the request listener of `http.createServer`,
  translated branch by branch; `pathname` is the already-decoded URL path.
  The result records the response, the new directory state, and whether
  the origin was consulted (`fetched`), which instruments the
  `superagent.get` call site.
-/

/-- A blob of bytes (Node `Buffer`). -/
abbrev Blob := List Nat

/-- The cache directory: file path to file content. -/
abbrev Cache := List (String × Blob)

/-- `fsp.readFile`: the content of path `p`, or `none` when absent. -/
def cacheLookup (c : Cache) (p : String) : Option Blob :=
  match c with
  | [] => none
  | (q, b) :: rest => if q = p then some b else cacheLookup rest p

/-- Remove every binding of path `p` (helper of `cacheInsert`/`unlink`). -/
def cacheErase (c : Cache) (p : String) : Cache :=
  match c with
  | [] => []
  | (q, b) :: rest =>
      if q = p then cacheErase rest p else (q, b) :: cacheErase rest p

/-- `fsp.writeFile`: overwrite path `p` with content `b`. -/
def cacheInsert (c : Cache) (p : String) (b : Blob) : Cache :=
  (p, b) :: cacheErase c p

/-- `const codeRegex = /^\d{3}$/` as a test on a string. -/
def codeRegex (s : String) : Bool :=
  s.data.length == 3 && s.data.all Char.isDigit

/-- `const fileForCode = (code) => path.join(CACHE_DIR, code + ".jpg")`. -/
def fileForCode (root code : String) : String :=
  root ++ "/" ++ code ++ ".jpg"

/-- `const HTTP_CAT_URL = (code) => "https://http.cat/" + code + ".jpg"`. -/
def httpCatUrl (code : String) : String :=
  "https://http.cat/" ++ code ++ ".jpg"

/-- The route guard `/^\/\d{3}$/.test(pathname)`. -/
def routeTest (p : String) : Bool :=
  match p.data with
  | c :: rest => c == '/' && (rest.length == 3 && rest.all Char.isDigit)
  | [] => false

/-- `pathname.slice(1)`: drop the first character. -/
def strDropOne (s : String) : String :=
  String.mk (s.data.drop 1)

/-- Basename of an entry of the cache directory, as `fsp.readdir` reports
it: the stored path without the `CACHE_DIR + "/"` prefix. -/
def stripRoot (root p : String) : String :=
  String.mk (p.data.drop (root.data.length + 1))

/-- Insert into a sorted list of names (helper of the `.sort()` step). -/
def insertSorted (x : String) : List String → List String
  | [] => [x]
  | y :: ys => if x < y then x :: y :: ys else y :: insertSorted x ys

/-- The `.sort()` of `listCacheFiles`. -/
def sortNames (l : List String) : List String :=
  l.foldr insertSorted []

/-- `listCacheFiles()`: the names of the files of the cache directory,
sorted. -/
def listCacheFiles (root : String) (c : Cache) : List String :=
  sortNames (c.map (fun e => stripRoot root e.1))

/-- One `<li>` of the index page. -/
def listItem (f : String) : String :=
  "<li>" ++ f ++ "</li>"

/-- The HTML template of `GET /`. -/
def indexHtml (host : String) (port : Nat) (dir : String)
    (files : List String) : String :=
  let items := String.join (files.map listItem)
  "<!doctype html><meta charset=\"utf-8\"><title>Cache</title>\n" ++
  "<body style=\"font-family:system-ui,Segoe UI,Arial,sans-serif\">\n" ++
  "<h1>Cache (" ++ toString files.length ++ ")</h1>\n" ++
  "<p>Host: <b>" ++ host ++ "</b> | Port: <b>" ++ toString port ++
  "</b> | Dir: <b>" ++ dir ++ "</b></p>\n" ++
  "<p>GET/PUT/DELETE /&lt;HTTP_CODE&gt; (файл зберігається як " ++
  "&lt;code&gt;.jpg). Якщо в кеші немає — тягнемо з http.cat і кешуємо.</p>\n" ++
  "<ol>" ++ (if items = "" then "<em>порожньо</em>" else items) ++
  "</ol></body>"

/-- `JSON.stringify({ error: "bad code" })`. -/
def badCodeJson : String := "\x7b\"error\":\"bad code\"\x7d"

/-- `JSON.stringify({ error: "not found (cache and http.cat failed)" })`. -/
def fetchFailJson : String :=
  "\x7b\"error\":\"not found (cache and http.cat failed)\"\x7d"

/-- `JSON.stringify({ error: "not found" })`. -/
def notFoundJson : String := "\x7b\"error\":\"not found\"\x7d"

/-- `JSON.stringify({ error: "method not allowed" })`. -/
def methodNotAllowedJson : String := "\x7b\"error\":\"method not allowed\"\x7d"

/-- `JSON.stringify({ error: "write failed" })`. -/
def writeFailedJson : String := "\x7b\"error\":\"write failed\"\x7d"

/-- `JSON.stringify({ ok: true, saved: code + ".jpg", bytes: n })`. -/
def putOkJson (code : String) (n : Nat) : String :=
  "\x7b\"ok\":true,\"saved\":\"" ++ code ++ ".jpg\",\"bytes\":" ++
  toString n ++ "\x7d"

/-- `JSON.stringify({ ok: true, deleted: code + ".jpg" })`. -/
def deletedJson (code : String) : String :=
  "\x7b\"ok\":true,\"deleted\":\"" ++ code ++ ".jpg\"\x7d"

/-- The body of a response: image bytes, a JSON string, plain text, the
index HTML, or empty (`res.end()`). -/
inductive RespBody where
  | bytes (b : Blob)
  | json (s : String)
  | text (s : String)
  | html (s : String)
  | empty
  deriving DecidableEq, Repr

/-- An HTTP response: status code and body. -/
structure Response where
  status : Nat
  body : RespBody
  deriving DecidableEq, Repr

/-- An incoming request: method, decoded pathname, and (for PUT) the
concatenated request body. -/
structure Request where
  method : String
  pathname : String
  reqBody : Blob
  deriving DecidableEq, Repr

/-- The effectful collaborators of one request: the outcome of the
`superagent` fetch and whether the `mkdir`/`writeFile` pair succeeds. -/
structure FsEnv where
  fetchResult : Option Blob
  writeOk : Bool
  deriving DecidableEq, Repr

/-- The outcome of one request: the response, the cache directory after
the request, and whether the origin fetch was attempted. -/
structure HandleResult where
  resp : Response
  cache : Cache
  fetched : Bool
  deriving DecidableEq, Repr

/-- The request listener of `http.createServer`, branch by branch from
`src/main.js`. -/
def handleRequest (root host : String) (port : Nat) (c : Cache)
    (req : Request) (env : FsEnv) : HandleResult :=
  if req.method = "OPTIONS" then
    ⟨⟨204, .empty⟩, c, false⟩
  else if req.method = "GET" ∧ req.pathname = "/health" then
    ⟨⟨200, .text "OK"⟩, c, false⟩
  else if req.method = "GET" ∧ req.pathname = "/" then
    ⟨⟨200, .html (indexHtml host port root (listCacheFiles root c))⟩, c, false⟩
  else if routeTest req.pathname = true then
    let code := strDropOne req.pathname
    if codeRegex code = false then
      ⟨⟨400, .json badCodeJson⟩, c, false⟩
    else
      let filePath := fileForCode root code
      if req.method = "GET" then
        match cacheLookup c filePath with
        | some buf => ⟨⟨200, .bytes buf⟩, c, false⟩
        | none =>
          match env.fetchResult with
          | some body =>
            if env.writeOk then
              ⟨⟨200, .bytes body⟩, cacheInsert c filePath body, true⟩
            else
              ⟨⟨404, .json fetchFailJson⟩, c, true⟩
          | none => ⟨⟨404, .json fetchFailJson⟩, c, true⟩
      else if req.method = "PUT" then
        if env.writeOk then
          ⟨⟨201, .json (putOkJson code req.reqBody.length)⟩,
            cacheInsert c filePath req.reqBody, false⟩
        else
          ⟨⟨500, .json writeFailedJson⟩, c, false⟩
      else if req.method = "DELETE" then
        match cacheLookup c filePath with
        | some _ =>
            ⟨⟨200, .json (deletedJson code)⟩, cacheErase c filePath, false⟩
        | none => ⟨⟨404, .json notFoundJson⟩, c, false⟩
      else
        ⟨⟨405, .json methodNotAllowedJson⟩, c, false⟩
  else
    ⟨⟨404, .json notFoundJson⟩, c, false⟩

/-- Whether a character list contains two consecutive dots (the `..`
path-traversal motif). -/
def hasDotDot : List Char → Bool
  | a :: b :: rest => (a == '.' && b == '.') || hasDotDot (b :: rest)
  | _ => false

/-- A file name that cannot escape its directory: nonempty, free of path
separators, and free of `..`. -/
def safeName (name : String) : Prop :=
  name ≠ "" ∧ (∀ ch ∈ name.data, ch ≠ '/' ∧ ch ≠ '\\') ∧
    hasDotDot name.data = false

/-- `p` lies strictly inside directory `root`: it is `root ++ "/" ++ name`
for a safe file name. -/
def insideRoot (root p : String) : Prop :=
  ∃ name, p = root ++ "/" ++ name ∧ safeName name

/-- The cache directory after a sequence of successful `PUT /<code>`
requests carrying bodies `bs`, in order. -/
def putSeq (root host : String) (port : Nat) (code : String) (c : Cache)
    (bs : List Blob) : Cache :=
  bs.foldl (fun acc b =>
    (handleRequest root host port acc ⟨"PUT", "/" ++ code, b⟩
      ⟨none, true⟩).cache) c

/-! ### Basic facts about the embedded string operations -/

theorem data_slash_append (s : String) : ("/" ++ s).data = '/' :: s.data := by
  rw [String.data_append]
  rfl

theorem routeTest_slash_append (code : String) :
    routeTest ("/" ++ code) = codeRegex code := by
  unfold routeTest codeRegex
  rw [data_slash_append]
  simp

theorem strDropOne_slash_append (code : String) :
    strDropOne ("/" ++ code) = code := by
  unfold strDropOne
  rw [data_slash_append]
  rfl

theorem slash_append_inj {a b : String} (h : "/" ++ a = "/" ++ b) :
    a = b := by
  apply String.ext
  have hd := congrArg String.data h
  rw [data_slash_append, data_slash_append] at hd
  exact List.cons_injective hd

theorem routeTest_imp {p : String} (h : routeTest p = true) :
    codeRegex (strDropOne p) = true := by
  cases p with
  | mk d =>
    cases d with
    | nil => simp [routeTest] at h
    | cons c rest =>
      simp only [routeTest] at h
      simp only [strDropOne, codeRegex, List.drop]
      exact (Bool.and_eq_true _ _).mp h |>.2

theorem codeRegex_data_length {code : String} (h : codeRegex code = true) :
    code.data.length = 3 := by
  unfold codeRegex at h
  exact beq_iff_eq.mp ((Bool.and_eq_true _ _).mp h).1

theorem slash_ne_health {code : String} (h : codeRegex code = true) :
    ¬("/" ++ code = "/health") := by
  intro heq
  have hd := congrArg (fun s => s.data.length) heq
  rw [show (fun s => s.data.length) ("/" ++ code) = ("/" ++ code).data.length
    from rfl] at hd
  rw [data_slash_append] at hd
  simp only [List.length_cons, codeRegex_data_length h] at hd
  exact absurd hd (by decide)

theorem slash_ne_index {code : String} (h : codeRegex code = true) :
    ¬("/" ++ code = "/") := by
  intro heq
  have hd := congrArg (fun s => s.data.length) heq
  rw [show (fun s => s.data.length) ("/" ++ code) = ("/" ++ code).data.length
    from rfl] at hd
  rw [data_slash_append] at hd
  simp only [List.length_cons, codeRegex_data_length h] at hd
  exact absurd hd (by decide)

/-! ### Behaviour of the handler on the `/<code>` route -/

theorem handle_get_hit (root host : String) (port : Nat) (c : Cache)
    (code : String) (b : Blob) (env : FsEnv) (buf : Blob)
    (hcode : codeRegex code = true)
    (hhit : cacheLookup c (fileForCode root code) = some buf) :
    handleRequest root host port c ⟨"GET", "/" ++ code, b⟩ env =
      ⟨⟨200, RespBody.bytes buf⟩, c, false⟩ := by
  have h1 := slash_ne_health hcode
  have h2 := slash_ne_index hcode
  simp only [handleRequest, routeTest_slash_append, hcode,
    strDropOne_slash_append, hhit]
  simp [h1, h2]

theorem handle_get_miss (root host : String) (port : Nat) (c : Cache)
    (code : String) (b : Blob) (env : FsEnv)
    (hcode : codeRegex code = true)
    (hmiss : cacheLookup c (fileForCode root code) = none) :
    handleRequest root host port c ⟨"GET", "/" ++ code, b⟩ env =
      match env.fetchResult with
      | some body =>
        if env.writeOk then
          ⟨⟨200, RespBody.bytes body⟩,
            cacheInsert c (fileForCode root code) body, true⟩
        else
          ⟨⟨404, RespBody.json fetchFailJson⟩, c, true⟩
      | none => ⟨⟨404, RespBody.json fetchFailJson⟩, c, true⟩ := by
  have h1 := slash_ne_health hcode
  have h2 := slash_ne_index hcode
  simp only [handleRequest, routeTest_slash_append, hcode,
    strDropOne_slash_append, hmiss]
  simp [h1, h2]

theorem handle_put_ok (root host : String) (port : Nat) (c : Cache)
    (code : String) (b : Blob) (fr : Option Blob)
    (hcode : codeRegex code = true) :
    handleRequest root host port c ⟨"PUT", "/" ++ code, b⟩ ⟨fr, true⟩ =
      ⟨⟨201, RespBody.json (putOkJson code b.length)⟩,
        cacheInsert c (fileForCode root code) b, false⟩ := by
  simp only [handleRequest, routeTest_slash_append, hcode,
    strDropOne_slash_append]
  simp

theorem handle_delete (root host : String) (port : Nat) (c : Cache)
    (code : String) (b : Blob) (env : FsEnv)
    (hcode : codeRegex code = true) :
    handleRequest root host port c ⟨"DELETE", "/" ++ code, b⟩ env =
      match cacheLookup c (fileForCode root code) with
      | some _ =>
        ⟨⟨200, RespBody.json (deletedJson code)⟩,
          cacheErase c (fileForCode root code), false⟩
      | none => ⟨⟨404, RespBody.json notFoundJson⟩, c, false⟩ := by
  simp only [handleRequest, routeTest_slash_append, hcode,
    strDropOne_slash_append]
  simp

/-! ### Facts about the cache directory operations -/

theorem cacheLookup_insert (c : Cache) (p : String) (b : Blob) :
    cacheLookup (cacheInsert c p b) p = some b := by
  simp [cacheInsert, cacheLookup]

theorem cacheLookup_erase (c : Cache) (p : String) :
    cacheLookup (cacheErase c p) p = none := by
  induction c with
  | nil => rfl
  | cons hd tl ih =>
    obtain ⟨q, b⟩ := hd
    by_cases hq : q = p
    · simp [cacheErase, hq, ih]
    · simp [cacheErase, cacheLookup, hq, ih]

/-! ### Claim C1 -/

/-- Claim C1 (as stated, refuted): on a miss with a successful origin fetch
but a failing write-back, the handler does NOT keep the 200 response: the
write-back sits inside the same `try` as the fetch, so its failure falls
into the `catch` and the caller receives 404, not 200. -/
theorem c1_counterexample :
    (handleRequest "/r" "h" 1 [] ⟨"GET", "/200", []⟩
      ⟨some [1, 2, 3], false⟩).resp = ⟨404, RespBody.json fetchFailJson⟩ ∧
    ¬((handleRequest "/r" "h" 1 [] ⟨"GET", "/200", []⟩
      ⟨some [1, 2, 3], false⟩).resp.status = 200) := by decide

/-- Claim C1 (amended): on a miss with a successful origin fetch, the GET
resolver returns 200 with the fetched bytes only when the write-back
(`mkdir`/`writeFile`) also succeeds; a write-back failure is caught by the
same `catch` as a fetch failure and turns the response into a 404 error,
leaving the cache unchanged. -/
theorem c1_writeback_failure_becomes_404 (root host : String) (port : Nat)
    (c : Cache) (code : String) (b body : Blob) (w : Bool)
    (hcode : codeRegex code = true)
    (hmiss : cacheLookup c (fileForCode root code) = none) :
    handleRequest root host port c ⟨"GET", "/" ++ code, b⟩ ⟨some body, w⟩ =
      if w then
        ⟨⟨200, RespBody.bytes body⟩,
          cacheInsert c (fileForCode root code) body, true⟩
      else
        ⟨⟨404, RespBody.json fetchFailJson⟩, c, true⟩ := by
  rw [handle_get_miss root host port c code b ⟨some body, w⟩ hcode hmiss]

/-- Concrete instance of the amended C1. -/
theorem c1_witness :
    handleRequest "/r" "h" 1 [] ⟨"GET", "/" ++ "200", []⟩ ⟨some [5], false⟩ =
      if false then
        ⟨⟨200, RespBody.bytes [5]⟩,
          cacheInsert [] (fileForCode "/r" "200") [5], true⟩
      else
        ⟨⟨404, RespBody.json fetchFailJson⟩, [], true⟩ :=
  c1_writeback_failure_becomes_404 "/r" "h" 1 [] "200" [] [5] false
    (by decide) (by decide)

/-! ### Claim C2 -/

/-- Claim C2 (as stated, refuted): a GET on the invalid key `12` is
answered 404, not 400: the route regex never matches an invalid key, so
the request falls through to the final not-found handler. -/
theorem c2_counterexample :
    (handleRequest "/r" "h" 1 [] ⟨"GET", "/12", []⟩
      ⟨none, true⟩).resp = ⟨404, RespBody.json notFoundJson⟩ ∧
    ¬((handleRequest "/r" "h" 1 [] ⟨"GET", "/12", []⟩
      ⟨none, true⟩).resp.status = 400) := by decide

/-- Claim C2 (amended): for every key not matching `^\d{3}$` (other than
the reserved routes `GET /health` and `GET /`), every GET, PUT or DELETE
request on `/<key>` falls through the route regex and is answered by the
fallback handler with 404 `{"error":"not found"}`, leaving the cache
unchanged; no 400 invalid-key response exists on this path. -/
theorem c2_invalid_key_falls_to_404 (root host : String) (port : Nat)
    (c : Cache) (k m : String) (b : Blob) (env : FsEnv)
    (hm : m = "GET" ∨ m = "PUT" ∨ m = "DELETE")
    (hk : codeRegex k = false) (hkh : k ≠ "health") (hke : k ≠ "") :
    handleRequest root host port c ⟨m, "/" ++ k, b⟩ env =
      ⟨⟨404, RespBody.json notFoundJson⟩, c, false⟩ := by
  have hmo : m ≠ "OPTIONS" := by rcases hm with rfl | rfl | rfl <;> decide
  have hh : ¬("/" ++ k = "/health") := by
    intro h
    rw [show ("/health" : String) = "/" ++ "health" from rfl] at h
    exact hkh (slash_append_inj h)
  have hr : ¬("/" ++ k = "/") := by
    intro h
    rw [show ("/" : String) = "/" ++ "" from rfl] at h
    exact hke (slash_append_inj h)
  simp only [handleRequest, routeTest_slash_append, hk]
  simp [hmo, hh, hr]

/-- Concrete instance of the amended C2. -/
theorem c2_witness :
    handleRequest "/r" "h" 1 [] ⟨"PUT", "/" ++ "12", [9]⟩ ⟨none, true⟩ =
      ⟨⟨404, RespBody.json notFoundJson⟩, [], false⟩ :=
  c2_invalid_key_falls_to_404 "/r" "h" 1 [] "12" "PUT" [9] ⟨none, true⟩
    (Or.inr (Or.inl rfl)) (by decide) (by decide) (by decide)

/-! ### Claim C3 -/

/-- Claim C3: on a cache hit, GET answers 200 with the locally stored
bytes, the cache is unchanged, and the origin fetch is never attempted
(`fetched = false` for every fetch environment). -/
theorem c3_cache_hit_short_circuits (root host : String) (port : Nat)
    (c : Cache) (code : String) (b : Blob) (env : FsEnv) (buf : Blob)
    (hcode : codeRegex code = true)
    (hhit : cacheLookup c (fileForCode root code) = some buf) :
    handleRequest root host port c ⟨"GET", "/" ++ code, b⟩ env =
      ⟨⟨200, RespBody.bytes buf⟩, c, false⟩ :=
  handle_get_hit root host port c code b env buf hcode hhit

/-- Concrete instance of C3. -/
theorem c3_witness :
    handleRequest "/r" "h" 1 [(fileForCode "/r" "200", [7])]
      ⟨"GET", "/" ++ "200", []⟩ ⟨none, false⟩ =
      ⟨⟨200, RespBody.bytes [7]⟩, [(fileForCode "/r" "200", [7])], false⟩ :=
  c3_cache_hit_short_circuits "/r" "h" 1 [(fileForCode "/r" "200", [7])]
    "200" [] ⟨none, false⟩ [7] (by decide) (by decide)

/-! ### Claim C4 -/

/-- Claim C4: on a miss with a failing origin fetch, GET answers 404 and
the cache is unchanged: no entry for the key is created. -/
theorem c4_fetch_failure_404_no_write (root host : String) (port : Nat)
    (c : Cache) (code : String) (b : Blob) (env : FsEnv)
    (hcode : codeRegex code = true)
    (hmiss : cacheLookup c (fileForCode root code) = none)
    (hfail : env.fetchResult = none) :
    handleRequest root host port c ⟨"GET", "/" ++ code, b⟩ env =
      ⟨⟨404, RespBody.json fetchFailJson⟩, c, true⟩ := by
  rw [handle_get_miss root host port c code b env hcode hmiss, hfail]

/-- Concrete instance of C4. -/
theorem c4_witness :
    handleRequest "/r" "h" 1 [] ⟨"GET", "/" ++ "512", []⟩ ⟨none, true⟩ =
      ⟨⟨404, RespBody.json fetchFailJson⟩, [], true⟩ :=
  c4_fetch_failure_404_no_write "/r" "h" 1 [] "512" [] ⟨none, true⟩
    (by decide) (by decide) (by decide)

/-! ### Claim C5 -/

theorem putSeq_nil (root host : String) (port : Nat) (code : String)
    (c : Cache) : putSeq root host port code c [] = c := rfl

theorem putSeq_cons (root host : String) (port : Nat) (code : String)
    (c : Cache) (b : Blob) (bs : List Blob)
    (hcode : codeRegex code = true) :
    putSeq root host port code c (b :: bs) =
      putSeq root host port code
        (cacheInsert c (fileForCode root code) b) bs := by
  simp only [putSeq, List.foldl_cons]
  rw [handle_put_ok root host port c code b none hcode]

theorem cacheLookup_putSeq (root host : String) (port : Nat) (code : String)
    (hcode : codeRegex code = true) :
    ∀ (bs : List Blob) (c : Cache) (h : bs ≠ []),
      cacheLookup (putSeq root host port code c bs)
        (fileForCode root code) = some (bs.getLast h)
  | [b], c, _ => by
      rw [putSeq_cons root host port code c b [] hcode,
        putSeq_nil root host port code]
      exact cacheLookup_insert c (fileForCode root code) b
  | b :: b' :: bs, c, _ => by
      rw [putSeq_cons root host port code c b (b' :: bs) hcode,
        List.getLast_cons (by simp)]
      exact cacheLookup_putSeq root host port code hcode (b' :: bs) _
        (by simp)

/-- Claim C5: after any nonempty sequence of successful PUTs to one valid
key, a GET on that key answers 200 with exactly the bytes of the last PUT
(last write wins), for every fetch environment. -/
theorem c5_last_write_wins (root host : String) (port : Nat) (c : Cache)
    (code : String) (bs : List Blob) (env : FsEnv)
    (hcode : codeRegex code = true) (hbs : bs ≠ []) :
    handleRequest root host port (putSeq root host port code c bs)
      ⟨"GET", "/" ++ code, []⟩ env =
      ⟨⟨200, RespBody.bytes (bs.getLast hbs)⟩,
        putSeq root host port code c bs, false⟩ :=
  handle_get_hit root host port _ code [] env _ hcode
    (cacheLookup_putSeq root host port code hcode bs c hbs)

/-- Concrete instance of C5: two PUTs, the GET returns the second body. -/
theorem c5_witness :
    handleRequest "/r" "h" 1 (putSeq "/r" "h" 1 "200" [] [[1], [2]])
      ⟨"GET", "/" ++ "200", []⟩ ⟨none, true⟩ =
      ⟨⟨200, RespBody.bytes (([[1], [2]] : List Blob).getLast (by decide))⟩,
        putSeq "/r" "h" 1 "200" [] [[1], [2]], false⟩ :=
  c5_last_write_wins "/r" "h" 1 [] "200" [[1], [2]] ⟨none, true⟩
    (by decide) (by decide)

/-! ### Claim C6 -/

/-- Claim C6: DELETE on a valid key answers 200 with
`{ok:true, deleted:"<code>.jpg"}` and removes the entry when it exists
(a subsequent lookup misses), and answers 404 `{error:"not found"}` with
the cache unchanged when it does not. -/
theorem c6_delete_present_or_absent (root host : String) (port : Nat)
    (c : Cache) (code : String) (b : Blob) (env : FsEnv)
    (hcode : codeRegex code = true) :
    (∀ buf, cacheLookup c (fileForCode root code) = some buf →
      handleRequest root host port c ⟨"DELETE", "/" ++ code, b⟩ env =
        ⟨⟨200, RespBody.json (deletedJson code)⟩,
          cacheErase c (fileForCode root code), false⟩ ∧
      cacheLookup (cacheErase c (fileForCode root code))
        (fileForCode root code) = none) ∧
    (cacheLookup c (fileForCode root code) = none →
      handleRequest root host port c ⟨"DELETE", "/" ++ code, b⟩ env =
        ⟨⟨404, RespBody.json notFoundJson⟩, c, false⟩) := by
  constructor
  · intro buf hbuf
    refine ⟨?_, cacheLookup_erase c (fileForCode root code)⟩
    rw [handle_delete root host port c code b env hcode, hbuf]
  · intro hmiss
    rw [handle_delete root host port c code b env hcode, hmiss]

/-- Concrete instance of C6 (the absent side, the spec's scenario for key
`999`). -/
theorem c6_witness :
    handleRequest "/r" "h" 1 [] ⟨"DELETE", "/" ++ "999", []⟩ ⟨none, true⟩ =
      ⟨⟨404, RespBody.json notFoundJson⟩, [], false⟩ :=
  (c6_delete_present_or_absent "/r" "h" 1 [] "999" [] ⟨none, true⟩
    (by decide)).2 (by decide)

/-! ### Claim C7 -/

/-- Claim C7 (as stated, refuted): OPTIONS is not GET, PUT or DELETE, yet
`OPTIONS /200` is answered 204 by the CORS preflight branch, not 405. -/
theorem c7_counterexample :
    (handleRequest "/r" "h" 1 [] ⟨"OPTIONS", "/200", []⟩
      ⟨none, true⟩).resp = ⟨204, RespBody.empty⟩ ∧
    ¬((handleRequest "/r" "h" 1 [] ⟨"OPTIONS", "/200", []⟩
      ⟨none, true⟩).resp.status = 405) := by decide

/-- Claim C7 (amended): on a `/<3-digit-code>` path, every method other
than GET, PUT, DELETE and OPTIONS is answered 405 method not allowed
(OPTIONS is answered 204 by the preflight branch before routing). -/
theorem c7_other_method_405 (root host : String) (port : Nat) (c : Cache)
    (m p : String) (b : Blob) (env : FsEnv)
    (hroute : routeTest p = true) (hg : m ≠ "GET") (hp : m ≠ "PUT")
    (hd : m ≠ "DELETE") (ho : m ≠ "OPTIONS") :
    handleRequest root host port c ⟨m, p, b⟩ env =
      ⟨⟨405, RespBody.json methodNotAllowedJson⟩, c, false⟩ := by
  simp only [handleRequest, hroute, routeTest_imp hroute]
  simp [hg, hp, hd, ho]

/-- Concrete instance of the amended C7. -/
theorem c7_witness :
    handleRequest "/r" "h" 1 [] ⟨"POST", "/200", []⟩ ⟨none, true⟩ =
      ⟨⟨405, RespBody.json methodNotAllowedJson⟩, [], false⟩ :=
  c7_other_method_405 "/r" "h" 1 [] "POST" "/200" [] ⟨none, true⟩
    (by decide) (by decide) (by decide) (by decide) (by decide)

/-! ### Claim C9 -/

theorem digit_not_sep {ch : Char} (h : Char.isDigit ch = true) :
    ch ≠ '/' ∧ ch ≠ '\\' := by
  constructor <;> (rintro rfl; revert h; decide)

theorem digit_beq_dot {ch : Char} (h : Char.isDigit ch = true) :
    (ch == '.') = false := by
  by_contra hne
  rw [Bool.not_eq_false, beq_iff_eq] at hne
  subst hne
  revert h
  decide

theorem hasDotDot_digits_jpg :
    ∀ l : List Char, l.all Char.isDigit = true →
      hasDotDot (l ++ ['.', 'j', 'p', 'g']) = false
  | [], _ => by decide
  | [a], h => by
      rw [List.all_cons, Bool.and_eq_true] at h
      calc hasDotDot ([a] ++ ['.', 'j', 'p', 'g'])
          = ((a == '.' && ('.' == '.' : Bool)) ||
              hasDotDot ['.', 'j', 'p', 'g']) := rfl
        _ = false := by rw [digit_beq_dot h.1]; rfl
  | a :: b :: l, h => by
      rw [List.all_cons, Bool.and_eq_true] at h
      have ih := hasDotDot_digits_jpg (b :: l) h.2
      calc hasDotDot ((a :: b :: l) ++ ['.', 'j', 'p', 'g'])
          = ((a == '.' && b == '.') ||
              hasDotDot ((b :: l) ++ ['.', 'j', 'p', 'g'])) := rfl
        _ = false := by rw [ih, digit_beq_dot h.1]; rfl

theorem jpg_data : (".jpg" : String).data = ['.', 'j', 'p', 'g'] := rfl

theorem fileForCode_assoc (root code : String) :
    fileForCode root code = root ++ "/" ++ (code ++ ".jpg") := by
  apply String.ext
  simp [fileForCode, String.data_append, List.append_assoc]

/-- Claim C9: the key-to-path mapping is the function
`code ↦ root/<code>.jpg`; it is injective on valid keys, and the produced
path lies strictly inside the root: its last component is nonempty, holds
no path separator, and holds no `..`. -/
theorem c9_path_mapping (root k1 k2 : String)
    (h1 : codeRegex k1 = true) (_h2 : codeRegex k2 = true) :
    fileForCode root k1 = root ++ "/" ++ (k1 ++ ".jpg") ∧
    (k1 ≠ k2 → fileForCode root k1 ≠ fileForCode root k2) ∧
    insideRoot root (fileForCode root k1) := by
  have hall : ∀ ch ∈ k1.data, Char.isDigit ch = true := by
    have := ((Bool.and_eq_true _ _).mp h1).2
    rwa [List.all_eq_true] at this
  refine ⟨fileForCode_assoc root k1, ?_, ?_⟩
  · intro hne heq
    apply hne
    apply String.ext
    have hd := congrArg String.data heq
    simp only [fileForCode, String.data_append] at hd
    exact List.append_cancel_left (List.append_cancel_right hd)
  · refine ⟨k1 ++ ".jpg", fileForCode_assoc root k1, ?_, ?_, ?_⟩
    · intro hempty
      have hd := congrArg String.data hempty
      rw [String.data_append, jpg_data] at hd
      have hlen := congrArg List.length hd
      simp at hlen
    · intro ch hch
      rw [String.data_append, jpg_data] at hch
      rcases List.mem_append.mp hch with hin | hin
      · exact digit_not_sep (hall ch hin)
      · simp at hin
        rcases hin with rfl | rfl | rfl | rfl <;> exact ⟨by decide, by decide⟩
    · rw [String.data_append, jpg_data]
      exact hasDotDot_digits_jpg k1.data
        ((Bool.and_eq_true _ _).mp h1).2

/-- Concrete instance of C9. -/
theorem c9_witness :
    fileForCode "/r" "200" = "/r" ++ "/" ++ ("200" ++ ".jpg") ∧
    ("200" ≠ "201" →
      fileForCode "/r" "200" ≠ fileForCode "/r" "201") ∧
    insideRoot "/r" (fileForCode "/r" "200") :=
  c9_path_mapping "/r" "200" "201" (by decide) (by decide)

/-! ### Claim C10 -/

/-- Claim C10: the 400 `{"error":"bad code"}` branch is dead code: no
request, routed or not, ever receives that response, because every
pathname passing the route regex yields a code passing `codeRegex`. -/
theorem c10_bad_code_unreachable (root host : String) (port : Nat)
    (c : Cache) (req : Request) (env : FsEnv) :
    (handleRequest root host port c req env).resp ≠
      ⟨400, RespBody.json badCodeJson⟩ := by
  simp only [handleRequest]
  repeat' split
  all_goals simp_all [routeTest_imp, badCodeJson, fetchFailJson,
    notFoundJson, methodNotAllowedJson, writeFailedJson, putOkJson,
    deletedJson]
